import Mathlib

/-!
Verification of the PyDocuShare client library (tmtsoftware/cont-pydocushare).

The development shallowly embeds the repository's data model and operations:

* the Handle value type in its two variants — the permissive one of
  src/docushare/handle.py (any digit count, unpadded identifiers) and the
  strict one of src/docushare.py (fixed digit widths, zero-padded
  identifiers);
* the HTML page classifiers and parsers of src/docushare/parser.py over a
  DOM tree (the BeautifulSoup tokenizer itself is an external collaborator;
  the embedding models the structural queries the code performs on it);
* the URL resolver, login state machine, download and object operations of
  src/docushare/docushare.py, with the HTTP transport, the keyring secret
  store and the interactive prompts modelled as explicit oracles/state;
* the domain objects of src/docushare/dsobject.py and the handle tree of
  src/docushare/handle.py.

Python exceptions are modelled with Except; machine integers are Nat/Int.
-/

set_option autoImplicit false

namespace PyDocuShare

/-! ## Character and decimal-string utilities -/

/-- Numeric value of an ASCII digit character (int(c) in Python terms). -/
def charVal (c : Char) : Nat := c.toNat - 48

/-- Value of a decimal digit string, as computed by Python int('0012') = 12. -/
def parseNatDigits (ds : List Char) : Nat :=
  ds.foldl (fun a c => 10 * a + charVal c) 0

/-- Fuel-driven digit emitter: most-significant digit first. -/
def decCharsAux : Nat → Nat → List Char
  | 0, _ => []
  | fuel + 1, n => if n = 0 then [] else decCharsAux fuel (n / 10) ++ [Nat.digitChar (n % 10)]

/-- Decimal representation of a natural number, as produced by Python str(n)
    and f-string interpolation of a non-negative int. -/
def decChars (n : Nat) : List Char :=
  if n = 0 then ['0'] else decCharsAux n n

/-- Longest-prefix stripping: returns the remainder of the second list after
    the first list, if the first is a prefix. Used to embed the anchored
    regular-expression matches of Handle.from_str. -/
def stripPre : List Char → List Char → Option (List Char)
  | [], s => some s
  | _ :: _, [] => none
  | c :: p, d :: s => if d = c then stripPre p s else none

/-- The whitespace set of Python str.strip (the ASCII part; the pages at
    hand contain no exotic Unicode spacing). -/
def isSpaceChar (c : Char) : Bool :=
  c == ' ' || c == '\t' || c == '\n' || c == '\r' || c == '\x0b' || c == '\x0c'

/-- Python str.strip(): drop leading and trailing whitespace. -/
def pyStrip (s : String) : String :=
  String.mk (((s.data.dropWhile isSpaceChar).reverse.dropWhile isSpaceChar).reverse)

/-- Python str.startswith over the character data. -/
def strStarts (pre s : String) : Bool := (stripPre pre.data s.data).isSome

/-- Zero padding to a minimum width, as produced by Python format(n, '05'). -/
def padZeros (w : Nat) (ds : List Char) : List Char :=
  List.replicate (w - ds.length) '0' ++ ds

/-! ## Errors

One error type covers both the Python built-in exceptions the code raises
(TypeError, ValueError, KeyError, ...) and the library's own taxonomy
(InvalidHandleError, ParseError, DocuShareSystemError, ...). -/

inductive PyError where
  | typeError
  | valueError
  | invalidHandle
  | keyError
  | indexError
  | attributeError
  | parseError
  | httpError
  | systemError
  | notAuthorized
  | notFound
  | notLoggedIn
  | loginFailure
  | runtimeError
deriving DecidableEq, Repr

/-! ## Handle (src/docushare/handle.py, permissive variant) -/

/-- HandleType enum of src/docushare/handle.py lines 25-41 (identical in
    src/docushare.py lines 21-34). Members in declaration order. -/
inductive HandleType where
  | Collection
  | Document
  | Version
deriving DecidableEq, Repr

/-- HandleType.identifier: canonical string of the handle type. -/
def HandleType.identifier : HandleType → String
  | .Collection => "Collection"
  | .Document => "Document"
  | .Version => "Version"

/-- Declaration-order list of the HandleType enum members, as iterated by
    for handle_type in HandleType. -/
def HandleType.members : List HandleType := [.Collection, .Document, .Version]

/-- A constructed Handle value: (type, number) with number a non-negative
    int (src/docushare/handle.py lines 61-72). -/
structure Handle where
  type : HandleType
  number : Nat
deriving DecidableEq, Repr

/-- Handle.__init__ of src/docushare/handle.py lines 61-72: rejects a
    negative handle_number with ValueError (the isinstance checks are
    carried by the types of the embedding). -/
def Handle.make (t : HandleType) (n : Int) : Except PyError Handle :=
  if n < 0 then .error .valueError else .ok ⟨t, n.toNat⟩

/-- Handle.identifier of src/docushare/handle.py lines 84-87:
    f-string type-dash-number, number printed without padding. -/
def Handle.identifier (h : Handle) : String :=
  h.type.identifier ++ "-" ++ String.mk (decChars h.number)

/-- Python's end-of-string anchor in re.match also matches just before one
    trailing newline; an anchored pattern therefore tolerates a single final
    newline character. -/
def pyDollarData (cs : List Char) : List Char :=
  if cs.getLast? = some '\n' then cs.dropLast else cs

/-- One iteration of the loop of Handle.from_str (src/docushare/handle.py
    lines 109-113): the anchored match of the pattern
    HandleType-([0-9]+) against the (newline-stripped) input, returning the
    captured number. Any digit count is accepted. -/
def matchTypeNum (t : HandleType) (cs : List Char) : Option Nat :=
  match stripPre (t.identifier ++ "-").data cs with
  | some ds => if ds ≠ [] ∧ ds.all (·.isDigit) then some (parseNatDigits ds) else none
  | none => none

/-- The loop body of Handle.from_str over the newline-normalized character
    data: tries the pattern of each HandleType in declaration order. -/
def handleFromData (cs : List Char) : Except PyError Handle :=
  match matchTypeNum .Collection cs with
  | some n => .ok ⟨.Collection, n⟩
  | none =>
    match matchTypeNum .Document cs with
    | some n => .ok ⟨.Document, n⟩
    | none =>
      match matchTypeNum .Version cs with
      | some n => .ok ⟨.Version, n⟩
      | none => .error .invalidHandle

/-- Handle.from_str of src/docushare/handle.py lines 89-115: tries the
    pattern of each HandleType in declaration order and raises
    InvalidHandleError when none matches. -/
def Handle.from_str (s : String) : Except PyError Handle :=
  handleFromData (pyDollarData s.data)

/-! ## Handle (src/docushare.py, strict variant with digit capacities) -/

namespace Strict

/-- Handle.__num_of_digits of src/docushare.py lines 50-54. -/
def numOfDigits : HandleType → Nat
  | .Collection => 5
  | .Document => 5
  | .Version => 6

/-- Largest number a handle type admits: 10 ** num_of_digits - 1
    (src/docushare.py line 73). -/
def maxNumber (t : HandleType) : Nat := 10 ^ numOfDigits t - 1

/-- Handle.__init__ of src/docushare.py lines 56-78: rejects a negative
    number and a number above the digit capacity with ValueError. -/
def make (t : HandleType) (n : Int) : Except PyError Handle :=
  if n < 0 then .error .valueError
  else if (maxNumber t : Int) < n then .error .valueError
  else .ok ⟨t, n.toNat⟩

/-- Handle.identifier of src/docushare.py lines 88-93: the number is
    zero-padded to the type's digit width. -/
def identifier (h : Handle) : String :=
  h.type.identifier ++ "-" ++ String.mk (padZeros (numOfDigits h.type) (decChars h.number))

/-- One iteration of the loop of Handle.from_str (src/docushare.py
    lines 95-103): the anchored pattern HandleType-([0-9]{d}) demands
    exactly the type's digit count. -/
def matchTypeNum (t : HandleType) (cs : List Char) : Option Nat :=
  match stripPre (t.identifier ++ "-").data cs with
  | some ds =>
    if ds.length = numOfDigits t ∧ ds.all (·.isDigit) then some (parseNatDigits ds) else none
  | none => none

/-- The loop body of the strict Handle.from_str over the
    newline-normalized character data. -/
def fromData (cs : List Char) : Except PyError Handle :=
  match matchTypeNum .Collection cs with
  | some n => .ok ⟨.Collection, n⟩
  | none =>
    match matchTypeNum .Document cs with
    | some n => .ok ⟨.Document, n⟩
    | none =>
      match matchTypeNum .Version cs with
      | some n => .ok ⟨.Version, n⟩
      | none => .error .valueError

/-- Handle.from_str of src/docushare.py lines 95-103; no match raises a
    plain ValueError there. -/
def from_str (s : String) : Except PyError Handle :=
  fromData (pyDollarData s.data)

end Strict

/-! ## Digit-string lemmas -/

theorem stripPre_self_append (p s : List Char) : stripPre p (p ++ s) = some s := by
  induction p with
  | nil => rfl
  | cons c p ih => simp [stripPre, ih]

theorem stripPre_ne_first {c d : Char} (h : d ≠ c) (p s : List Char) :
    stripPre (c :: p) (d :: s) = none := by
  simp [stripPre, h]

theorem charVal_digitChar {d : Nat} (h : d < 10) : charVal (Nat.digitChar d) = d := by
  interval_cases d <;> rfl

theorem isDigit_digitChar {d : Nat} (h : d < 10) : (Nat.digitChar d).isDigit = true := by
  interval_cases d <;> rfl

theorem foldl_base10_reverse (l : List Nat) :
    l.reverse.foldl (fun a d => 10 * a + d) 0 = Nat.ofDigits 10 l := by
  induction l with
  | nil => simp [Nat.ofDigits]
  | cons d l ih =>
    rw [List.reverse_cons, List.foldl_append, ih, Nat.ofDigits_cons]
    simp
    ring

theorem decCharsAux_eq (fuel : Nat) : ∀ n : Nat, n ≤ fuel →
    decCharsAux fuel n = (Nat.digits 10 n).reverse.map Nat.digitChar := by
  induction fuel with
  | zero =>
    intro n h
    interval_cases n
    simp [decCharsAux]
  | succ fuel ih =>
    intro n h
    by_cases h0 : n = 0
    · subst h0; simp [decCharsAux]
    · have hdiv : n / 10 ≤ fuel := by
        have := Nat.div_lt_self (Nat.pos_of_ne_zero h0) (by norm_num : 1 < 10)
        omega
      show (if n = 0 then [] else decCharsAux fuel (n / 10) ++ [Nat.digitChar (n % 10)]) = _
      rw [if_neg h0, ih (n / 10) hdiv,
        Nat.digits_def' (by norm_num : 1 < 10) (Nat.pos_of_ne_zero h0)]
      simp

/-- The fuel version agrees with the mathematical digit expansion. -/
theorem decChars_eq (n : Nat) :
    decChars n = if n = 0 then ['0'] else (Nat.digits 10 n).reverse.map Nat.digitChar := by
  unfold decChars
  by_cases h0 : n = 0
  · simp [h0]
  · rw [if_neg h0, if_neg h0, decCharsAux_eq n n le_rfl]

theorem parseNatDigits_decChars (n : Nat) : parseNatDigits (decChars n) = n := by
  rw [decChars_eq]
  by_cases h : n = 0
  · subst h; rfl
  · unfold parseNatDigits
    rw [if_neg h, List.foldl_map]
    have hlt : ∀ d ∈ (Nat.digits 10 n).reverse, d < 10 := by
      intro d hd
      exact Nat.digits_lt_base (by norm_num) (List.mem_reverse.mp hd)
    calc (Nat.digits 10 n).reverse.foldl (fun a d => 10 * a + charVal (Nat.digitChar d)) 0
        = (Nat.digits 10 n).reverse.foldl (fun a d => 10 * a + d) 0 := by
          apply List.foldl_ext
          intro a d hd
          rw [charVal_digitChar (hlt d hd)]
      _ = Nat.ofDigits 10 (Nat.digits 10 n) := foldl_base10_reverse _
      _ = n := Nat.ofDigits_digits 10 n

theorem decChars_ne_nil (n : Nat) : decChars n ≠ [] := by
  rw [decChars_eq]
  by_cases h : n = 0
  · simp [h]
  · rw [if_neg h]
    intro hc
    rw [List.map_eq_nil_iff, List.reverse_eq_nil_iff] at hc
    exact (@Nat.digits_ne_nil_iff_ne_zero 10 n).mpr h hc

theorem decChars_all_digits (n : Nat) : ∀ c ∈ decChars n, c.isDigit = true := by
  intro c hc
  rw [decChars_eq] at hc
  by_cases h : n = 0
  · simp [h] at hc; subst hc; rfl
  · rw [if_neg h] at hc
    rcases List.mem_map.mp hc with ⟨d, hd, rfl⟩
    exact isDigit_digitChar (Nat.digits_lt_base (by norm_num) (List.mem_reverse.mp hd))

theorem zeros_all_digits (k : Nat) : ∀ c ∈ List.replicate k '0', c.isDigit = true := by
  intro c hc
  rw [List.eq_of_mem_replicate hc]; rfl

theorem parseNatDigits_replicate_zero_append (k : Nat) (ds : List Char) :
    parseNatDigits (List.replicate k '0' ++ ds) = parseNatDigits ds := by
  unfold parseNatDigits
  rw [List.foldl_append]
  congr 1
  induction k with
  | zero => rfl
  | succ k ih => rw [List.replicate_succ, List.foldl_cons]; simpa using ih

theorem decChars_length_le {n w : Nat} (hw : 1 ≤ w) (h : n < 10 ^ w) :
    (decChars n).length ≤ w := by
  rw [decChars_eq]
  by_cases h0 : n = 0
  · subst h0; simpa using hw
  · rw [if_neg h0]
    simp only [List.length_map, List.length_reverse]
    rw [Nat.digits_len 10 n (by norm_num) h0]
    have := (Nat.lt_pow_iff_log_lt (by norm_num : 1 < 10) h0).mp h
    omega

theorem isDigit_ne_newline {c : Char} (h : c.isDigit = true) : c ≠ '\n' := by
  intro hc
  subst hc
  simp [Char.isDigit] at h

/-- The identifier strings never end in a newline, so Python's trailing
    newline tolerance is inert on them. -/
theorem pyDollarData_of_digits_suffix (p ds : List Char) (hne : ds ≠ [])
    (hds : ∀ c ∈ ds, c.isDigit = true) : pyDollarData (p ++ ds) = p ++ ds := by
  unfold pyDollarData
  rw [List.getLast?_append_of_ne_nil _ hne]
  have hmem : ∀ x ∈ ds.getLast?, x ∈ ds := by
    intro x hx
    rcases List.mem_getLast?_eq_getLast hx with ⟨hh, rfl⟩
    exact List.getLast_mem hh
  rw [if_neg]
  intro hcon
  have hx := hmem '\n' hcon
  exact isDigit_ne_newline (hds _ hx) rfl

/-! ## DOM model

BeautifulSoup (the HTML tokenizer/DOM library) is an external collaborator
(spec section 6); the embedding represents an already-tokenized document as
a tree of elements and text nodes and models the structural queries the
repository code performs on it: find_all by tag, find by tag and attribute
value, concatenated text, attribute lookup. -/

inductive Dom where
  | element (tag : String) (attrs : List (String × String)) (children : List Dom)
  | textNode (s : String)

mutual

/-- Tag.text of BeautifulSoup: concatenation of all descendant strings. -/
def Dom.text : Dom → String
  | .textNode s => s
  | .element _ _ cs => textList cs

def textList : List Dom → String
  | [] => ""
  | d :: ds => Dom.text d ++ textList ds

end

mutual

/-- find_all(tag) over a subtree: matching elements in document order. -/
def Dom.findAll (tag : String) : Dom → List Dom
  | .textNode _ => []
  | .element t a cs => (if t = tag then [Dom.element t a cs] else []) ++ findAllList tag cs

def findAllList (tag : String) : List Dom → List Dom
  | [] => []
  | d :: ds => Dom.findAll tag d ++ findAllList tag ds

end

/-- Attribute lookup on an element: Tag.has_attr / Tag[name]. -/
def Dom.attr? (d : Dom) (name : String) : Option String :=
  match d with
  | .textNode _ => none
  | .element _ attrs _ => List.lookup name attrs

/-- find_all(tag, attrs) over a whole document. -/
def findAllWithAttr (tag attrName attrVal : String) (doc : List Dom) : List Dom :=
  (findAllList tag doc).filter (fun e => e.attr? attrName == some attrVal)

/-- find(tag, attrs): the first matching element in document order. -/
def findWithAttr (tag attrName attrVal : String) (doc : List Dom) : Option Dom :=
  (findAllWithAttr tag attrName attrVal doc).head?

/-- Substring test, Python's s2 in s1. -/
def strContains (s sub : String) : Bool := decide (sub.data <:+: s.data)

/-! ## HTTP responses and page classifiers (src/docushare/parser.py) -/

/-- A received HTTP response: status code, headers, and the HTML body as
    tokenized by BeautifulSoup (list of top-level DOM nodes). -/
structure HttpResponse where
  statusCode : Nat
  headers : List (String × String)
  body : List Dom

/-- Header lookup. The repository always uses the canonical
    Content-Type spelling, so exact-name lookup models the
    case-insensitive dict of the transport for these accesses. -/
def HttpResponse.header? (r : HttpResponse) (name : String) : Option String :=
  List.lookup name r.headers

/-- The content-type gate shared by the three page classifiers
    (src/docushare/parser.py lines 30-31, 55-56, 80-81). -/
def contentTypeIsHtml (r : HttpResponse) : Bool :=
  match r.header? "Content-Type" with
  | some v => strStarts "text/html" v
  | none => false

/-- is_not_found_page of src/docushare/parser.py lines 15-38: HTML
    content type and some h2 heading whose stripped text contains
    Not Found. -/
def is_not_found_page (r : HttpResponse) : Bool :=
  contentTypeIsHtml r
    && (findAllList "h2" r.body).any (fun h2 => strContains (pyStrip h2.text) "Not Found")

/-- is_not_authorized_page of src/docushare/parser.py lines 40-63: HTML
    content type and some h1 heading whose stripped text contains
    Not Authorized. -/
def is_not_authorized_page (r : HttpResponse) : Bool :=
  contentTypeIsHtml r
    && (findAllList "h1" r.body).any (fun h1 => strContains (pyStrip h1.text) "Not Authorized")

/-- parse_if_system_error_page of src/docushare/parser.py lines 65-93.
    Returns (None, None) for a non-HTML response and for a page with
    neither input field; when a field is present, a missing value
    attribute maps to the empty string. When exactly one of the two
    fields is present the code dereferences None (AttributeError). -/
def parse_if_system_error_page (r : HttpResponse) :
    Except PyError (Option String × Option String) :=
  if contentTypeIsHtml r then
    match findWithAttr "input" "name" "dserrorcode" r.body,
        findWithAttr "input" "name" "detail_message" r.body with
    | some e1, some e2 =>
      .ok (some ((e1.attr? "value").getD ""), some ((e2.attr? "value").getD ""))
    | some _, none => .error .attributeError
    | none, some _ => .error .attributeError
    | none, none => .ok (none, none)
  else .ok (none, none)

/-! ## Parsers for property and history pages (src/docushare/parser.py) -/

/-- A Python value as stored in the parsed property dict and passed to the
    domain-object constructors: the embedding of a dynamically typed slot. -/
inductive PyValue where
  | vStr (s : String)
  | vInt (n : Int)
  | vHandle (h : Handle)
  | vNone
  | vOther
deriving DecidableEq, Repr

/-- Ordered-dict update: overwrite in place, append new keys at the end. -/
def dictSet (d : List (String × PyValue)) (k : String) (v : PyValue) :
    List (String × PyValue) :=
  if (d.find? (fun p => p.1 == k)).isSome
  then d.map (fun p => if p.1 == k then (k, v) else p)
  else d ++ [(k, v)]

/-- Dict lookup (first binding). -/
def dictGet? (d : List (String × PyValue)) (k : String) : Option PyValue :=
  List.lookup k d

/-- Python int(str): optional surrounding whitespace and sign, then a
    nonempty digit string; anything else raises ValueError. -/
def pyInt (s : String) : Except PyError Int :=
  match (pyStrip s).data with
  | '-' :: ds =>
    if ds ≠ [] ∧ ds.all (·.isDigit) then .ok (-(parseNatDigits ds : Int))
    else .error .valueError
  | '+' :: ds =>
    if ds ≠ [] ∧ ds.all (·.isDigit) then .ok ((parseNatDigits ds : Int))
    else .error .valueError
  | ds =>
    if ds ≠ [] ∧ ds.all (·.isDigit) then .ok ((parseNatDigits ds : Int))
    else .error .valueError

/-- Locator of the scheme-authority separator in a URL. -/
def afterSchemeSep : List Char → Option (List Char)
  | ':' :: '/' :: '/' :: rest => some rest
  | _ :: rest => afterSchemeSep rest
  | [] => none

/-- urlparse(url).path, modelled for the URLs the code handles: the query
    and fragment are cut, and for an absolute URL the scheme and
    authority are dropped. -/
def pyUrlPath (url : String) : String :=
  let cs := url.data.takeWhile (fun c => !(c == '?') && !(c == '#'))
  match afterSchemeSep cs with
  | some rest => String.mk (rest.dropWhile (fun c => !(c == '/')))
  | none => String.mk cs

/-- PurePosixPath(path).name for a path that does not end in a slash:
    the component after the last slash. -/
def pathBasename (p : String) : String :=
  String.mk (p.data.reverse.takeWhile (fun c => !(c == '/'))).reverse

/-- The value assigned for one property row (src/docushare/parser.py
    lines 176-182): the Handle field goes through handle(), the
    Version Number field through int(), anything else stays text. A
    coercion failure escapes the row loop and is wrapped as ParseError. -/
def propRowValue (fieldName fieldValue : String) : Except PyError PyValue :=
  if fieldName = "Handle" then
    match Handle.from_str fieldValue with
    | .ok h => .ok (.vHandle h)
    | .error _ => .error .parseError
  else if fieldName = "Version Number" then
    match pyInt fieldValue with
    | .ok n => .ok (.vInt n)
    | .error _ => .error .parseError
  else .ok (.vStr fieldValue)

/-- The derived _filename property (src/docushare/parser.py lines
    184-188): for a Document or Version page, the Title row's link target
    yields the path basename. A missing link or missing href escapes the
    loop and is wrapped as ParseError. -/
def titleFilename (t : HandleType) (fieldName : String) (c1 : Dom) :
    Except PyError (Option String) :=
  if (t = .Document ∨ t = .Version) ∧ fieldName = "Title" then
    match (Dom.findAll "a" c1).head? with
    | none => .error .parseError
    | some a =>
      match a.attr? "href" with
      | none => .error .parseError
      | some href => .ok (some (pathBasename (pyUrlPath href)))
  else .ok none

/-- The row loop of parse_property_page (src/docushare/parser.py lines
    168-188). A row without two td cells raises IndexError, wrapped as
    ParseError. -/
def propRows (t : HandleType) :
    List Dom → List (String × PyValue) → Except PyError (List (String × PyValue))
  | [], props => .ok props
  | row :: rest, props =>
    match Dom.findAll "td" row with
    | [] => .error .parseError
    | [_] => .error .parseError
    | c0 :: c1 :: _ =>
      let rawName := pyStrip c0.text
      let fieldName :=
        if rawName.data.getLast? = some ':' then String.mk rawName.data.dropLast else rawName
      let fieldValue := pyStrip c1.text
      match propRowValue fieldName fieldValue with
      | .error e => .error e
      | .ok v =>
        match titleFilename t fieldName c1 with
        | .error e => .error e
        | .ok none => propRows t rest (dictSet props fieldName v)
        | .ok (some fn) =>
          propRows t rest (dictSet (dictSet props fieldName v) "_filename" (.vStr fn))

/-- parse_property_page of src/docushare/parser.py lines 137-192: scans
    the rows of the propstable table; every failure inside the try block
    (including a missing table, on which find_all is called through None)
    is wrapped as ParseError. -/
def parse_property_page (body : List Dom) (t : HandleType) :
    Except PyError (List (String × PyValue)) :=
  match findWithAttr "table" "class" "propstable" body with
  | none => .error .parseError
  | some table => propRows t (Dom.findAll "tr" table) []

/-- The header scan of parse_history_page (src/docushare/parser.py lines
    223-228): column index to nonempty stripped column name, in index
    order. -/
def historyFieldNames : List Dom → Nat → List (Nat × String)
  | [], _ => []
  | h :: rest, i =>
    let nm := pyStrip h.text
    (if nm ≠ "" then [(i, nm)] else []) ++ historyFieldNames rest (i + 1)

/-- The regular-expression search for /(Version-[0-9]+)/ in a link target
    (src/docushare/parser.py line 245): leftmost occurrence of a
    slash-delimited Version token, returning the digit characters. -/
def matchVersionAt (cs : List Char) : Option (List Char) :=
  match cs with
  | '/' :: rest =>
    match stripPre "Version-".data rest with
    | some rest2 =>
      let ds := rest2.takeWhile (·.isDigit)
      if ds ≠ [] ∧ (rest2.drop ds.length).head? = some '/' then some ds else none
    | none => none
  | _ => none

def searchVersion : List Char → Option (List Char)
  | [] => none
  | c :: rest =>
    match matchVersionAt (c :: rest) with
    | some ds => some ds
    | none => searchVersion rest

/-- The per-row column loop of parse_history_page (src/docushare/parser.py
    lines 234-252): only the column named # is inspected; a cell without a
    link, or a link without a Version token, is skipped. A link tag
    lacking href raises KeyError, wrapped as ParseError. -/
def historyRowHandles (cells : List Dom) :
    List (Nat × String) → Except PyError (List Handle)
  | [] => .ok []
  | (i, nm) :: restF =>
    let here : Except PyError (List Handle) :=
      if i < cells.length then
        if nm = "#" then
          match (Dom.findAll "a" (cells.getD i (.textNode ""))).head? with
          | none => .ok []
          | some a =>
            match a.attr? "href" with
            | none => .error .parseError
            | some href =>
              match searchVersion href.data with
              | none => .ok []
              | some ds =>
                match Handle.from_str (String.mk ("Version-".data ++ ds)) with
                | .ok h => .ok [h]
                | .error _ => .error .parseError
        else .ok []
      else .ok []
    match here, historyRowHandles cells restF with
    | .error e, _ => .error e
    | .ok _, .error e => .error e
    | .ok hs, .ok rest => .ok (hs ++ rest)

def historyRows (fieldNames : List (Nat × String)) :
    List Dom → Except PyError (List Handle)
  | [] => .ok []
  | row :: rest =>
    match historyRowHandles (Dom.findAll "td" row) fieldNames,
        historyRows fieldNames rest with
    | .error e, _ => .error e
    | .ok _, .error e => .error e
    | .ok hs, .ok more => .ok (hs ++ more)

/-- parse_history_page of src/docushare/parser.py lines 195-259: reads the
    header of the table_properties table and collects the Version handles
    of the linked # cells; failures inside the try block (missing table,
    missing thead) are wrapped as ParseError. -/
def parse_history_page (body : List Dom) : Except PyError (List Handle) :=
  match findWithAttr "table" "class" "table_properties" body with
  | none => .error .parseError
  | some table =>
    match (Dom.findAll "thead" table).head? with
    | none => .error .parseError
    | some thead =>
      historyRows (historyFieldNames (Dom.findAll "th" thead) 0) (Dom.findAll "tr" table)

/-- Modelled from the spec: parse_collection_page is imported by
    src/docushare/docushare.py line 19 from .parser, but its definition is
    not present under src/. Spec section 4.2: parse_collection_page(body)
    returns the ordered sequence of child object handles listed on a
    collection view. Modelled as the handles named by the anchor elements
    of the page in document order, keeping each anchor whose stripped text
    parses as a DocuShare handle. -/
def parse_collection_page (body : List Dom) : Except PyError (List Handle) :=
  .ok ((findAllList "a" body).filterMap (fun a =>
    match Handle.from_str (pyStrip a.text) with
    | .ok h => some h
    | .error _ => none))

/-! ## URL resolution (src/docushare/util.py and DocuShare.url) -/

/-- urllib.parse.urljoin, modelled for the calls the resolver makes: an
    absolute base whose path ends with a slash joined with a relative
    reference (no scheme, no authority, no leading slash, no dot
    segments). Such a reference replaces everything after the base's last
    slash; an empty reference returns the base. -/
def urljoin (base ref : String) : String :=
  if ref = "" then base
  else String.mk ((base.data.reverse.dropWhile (fun c => !(c == '/'))).reverse) ++ ref

/-- join_url of src/docushare/util.py lines 3-25 applied to a nonempty
    argument list: the first argument seeds the fold, the rest are joined
    in turn. -/
def join_url (first : String) (rest : List String) : String :=
  rest.foldl urljoin first

/-- Resource enum of src/docushare/docushare.py lines 23-32. -/
inductive Resource where
  | DSWEB
  | Login
  | ApplyLogin
  | Services
  | History
  | Get
  | View
deriving DecidableEq, Repr

/-- DocuShare.url of src/docushare/docushare.py lines 268-304: resource
    None returns the base URL; Services requires a Handle; History, Get
    and View additionally constrain the handle type and raise ValueError
    on a mismatch; a missing handle raises TypeError. -/
def DocuShare.url (baseUrl : String) (resource : Option Resource) (hdl : Option Handle) :
    Except PyError String :=
  match resource with
  | none => .ok baseUrl
  | some r =>
    let dsweb := join_url baseUrl ["dsweb/"]
    match r with
    | .DSWEB => .ok dsweb
    | .Login => .ok (join_url dsweb ["Login"])
    | .ApplyLogin => .ok (join_url dsweb ["ApplyLogin"])
    | .Services =>
      match hdl with
      | none => .error .typeError
      | some h => .ok (join_url dsweb ["Services/", h.identifier])
    | .History =>
      match hdl with
      | none => .error .typeError
      | some h =>
        if h.type ≠ .Document then .error .valueError
        else .ok (join_url dsweb ["ServicesLib/", h.identifier ++ "/", "History"])
    | .Get =>
      match hdl with
      | none => .error .typeError
      | some h =>
        if h.type ≠ .Document ∧ h.type ≠ .Version then .error .valueError
        else .ok (join_url dsweb ["Get/", h.identifier])
    | .View =>
      match hdl with
      | none => .error .typeError
      | some h =>
        if h.type ≠ .Collection then .error .valueError
        else .ok (join_url dsweb ["View/", h.identifier])

/-! ## Login state machine (DocuShare.login, src/docushare/docushare.py 306-438)

The HTTP transport, the login-page parse, the challenge-response engine
and the interactive prompts are external collaborators. The embedding
keeps what the claims are about: whether a credential POST authenticates
is an oracle over the entered password; the keyring store, the queue of
passwords the user would type, and the observable events (credential
POSTs, effective keyring deletions, keyring stores) are explicit state. -/

/-- PasswordOption enum plus the explicit-string case of the password
    parameter. -/
inductive PasswordChoice where
  | explicitPw (pw : String)
  | ask
  | useStored
deriving DecidableEq, Repr

/-- Externally observable login events, in order of occurrence. -/
inductive LoginEvent where
  | post (pw : String)
  | storeDelete
  | storeSet (pw : String)
deriving DecidableEq, Repr

structure LoginWorld where
  keyringStore : Option String
  promptQueue : List String
  events : List LoginEvent
  amberUser : Bool
  username : Option String
deriving DecidableEq, Repr

/-- Outcome of DocuShare.login: normal return, the RuntimeError login
    failure, or the TypeError of an invalid retry_count; each carries the
    final world state (Python exceptions do not roll back side effects). -/
inductive LoginResult where
  | success (w : LoginWorld)
  | loginFailure (w : LoginWorld)
  | typeError (w : LoginWorld)
deriving DecidableEq, Repr

/-- getpass.getpass: consume the next password the user would enter (an
    exhausted queue yields the empty string). -/
def promptPassword (w : LoginWorld) : String × LoginWorld :=
  match w.promptQueue with
  | [] => ("", w)
  | p :: rest => (p, { w with promptQueue := rest })

/-- DocuShare.__delete_password (lines 505-511): keyring.delete_password
    removes the entry; its failure on a missing entry is swallowed, so
    only an effective deletion is observable. -/
def deletePassword (w : LoginWorld) : LoginWorld :=
  match w.keyringStore with
  | some _ => { w with keyringStore := none, events := w.events ++ [.storeDelete] }
  | none => w

/-- DocuShare.__set_password (lines 497-503). -/
def setPassword (w : LoginWorld) (pw : String) : LoginWorld :=
  { w with keyringStore := some pw, events := w.events ++ [.storeSet pw] }

/-- The tail of DocuShare.login after the authentication check (lines
    432-438): record the username and, under the USE_STORED policy, store
    the password this frame entered. -/
def finishLogin (w : LoginWorld) (password : PasswordChoice) (entered username : String) :
    LoginResult :=
  let w2 := { w with username := some username }
  match password with
  | .useStored => .success (setPassword w2 entered)
  | _ => .success w2

/-- DocuShare.login of src/docushare/docushare.py lines 306-438 for a
    reachable server with a well-formed login page: retry_count below 1
    raises TypeError; every call clears the cookies and the recorded
    username, resolves the password per policy (a stored empty password
    counts as absent), POSTs the credentials once (the oracle auth decides
    whether the AmberUser cookie appears), and on failure either raises
    the fatal RuntimeError (retry_count exhausted, or an explicit password
    string), or — after deleting the stored password under USE_STORED —
    recurses with retry_count - 1. A successful recursion returns to the
    outer frame, which still records the username and re-stores the
    password that frame entered. -/
def DocuShare.login (auth : String → Bool) (username : String)
    (password : PasswordChoice) : Nat → LoginWorld → LoginResult
  | 0, w => .typeError w
  | k + 1, w =>
    let w1 := { w with amberUser := false, username := none }
    let ew : String × LoginWorld :=
      match password with
      | .ask => promptPassword w1
      | .useStored =>
        match w1.keyringStore with
        | some p => if p = "" then promptPassword w1 else (p, w1)
        | none => promptPassword w1
      | .explicitPw s => (s, w1)
    let entered := ew.1
    let auth_ok := auth entered
    let w2 := { ew.2 with events := ew.2.events ++ [.post entered], amberUser := auth_ok }
    if auth_ok then
      finishLogin w2 password entered username
    else if k = 0 then .loginFailure w2
    else
      match password with
      | .useStored =>
        match DocuShare.login auth username .useStored k (deletePassword w2) with
        | .success w3 => finishLogin w3 .useStored entered username
        | r => r
      | .ask =>
        match DocuShare.login auth username .ask k w2 with
        | .success w3 => finishLogin w3 .ask entered username
        | r => r
      | .explicitPw _ => .loginFailure w2

/-- The passwords the user would be prompted for over k login attempts
    that each consume one prompt: the queue entries, padded with the empty
    string once the queue is exhausted. -/
def promptSeq : Nat → List String → List String
  | 0, _ => []
  | k + 1, [] => "" :: promptSeq k []
  | k + 1, p :: rest => p :: promptSeq k rest

/-- The credential POSTs among a list of login events. -/
def countPosts (evs : List LoginEvent) : Nat :=
  (evs.filter (fun e => match e with | .post _ => true | _ => false)).length

/-! ## Domain objects (src/docushare/dsobject.py) -/

/-- FileObject.__init__ checks (src/docushare/dsobject.py lines 57-66):
    title then filename must be str, else TypeError. -/
def fileObjectChecks (title filename : PyValue) : Except PyError (String × String) :=
  match title with
  | .vStr t =>
    match filename with
    | .vStr f => .ok (t, f)
    | _ => .error .typeError
  | _ => .error .typeError

/-- Python isinstance(x, Handle) extractor over a dynamically typed list:
    some iff every element is a Handle. -/
def extractHandles : List PyValue → Option (List Handle)
  | [] => some []
  | v :: rest =>
    match v with
    | .vHandle h => (extractHandles rest).map (fun hs => h :: hs)
    | _ => none

structure DocumentObject where
  hdl : Handle
  title : String
  filename : String
  document_control_number : Option String
  version_handles : List Handle
deriving DecidableEq, Repr

/-- The version_handles checks of DocumentObject.__init__ (lines 145-150):
    all elements must be Handle instances (TypeError) of Version type
    (ValueError). -/
def versionHandlesCheck (vhs : List PyValue) : Except PyError (List Handle) :=
  match extractHandles vhs with
  | none => .error .typeError
  | some hs =>
    if hs.all (fun h => h.type == HandleType.Version) then .ok hs
    else .error .valueError

/-- DocumentObject.__init__ of src/docushare/dsobject.py lines 138-153,
    check for check: the FileObject checks run first, then the handle type
    (ValueError), the document_control_number type (TypeError), then the
    version_handles checks. -/
def DocumentObject.make (hdl : Handle) (title filename dcn : PyValue)
    (version_handles : List PyValue) : Except PyError DocumentObject :=
  match fileObjectChecks title filename with
  | .error e => .error e
  | .ok (t, f) =>
    if hdl.type ≠ .Document then .error .valueError
    else
      match dcn with
      | .vStr d =>
        (versionHandlesCheck version_handles).map (fun hs => ⟨hdl, t, f, some d, hs⟩)
      | .vNone =>
        (versionHandlesCheck version_handles).map (fun hs => ⟨hdl, t, f, none, hs⟩)
      | _ => .error .typeError

structure VersionObject where
  hdl : Handle
  title : String
  filename : String
  version_number : PyValue
deriving DecidableEq, Repr

/-- VersionObject.__init__ of src/docushare/dsobject.py lines 190-195:
    FileObject checks, then the handle type must be Version (ValueError);
    version_number is stored unchecked. -/
def VersionObject.make (hdl : Handle) (title filename version_number : PyValue) :
    Except PyError VersionObject :=
  match fileObjectChecks title filename with
  | .error e => .error e
  | .ok (t, f) =>
    if hdl.type ≠ .Version then .error .valueError
    else .ok ⟨hdl, t, f, version_number⟩

structure CollectionObject where
  hdl : Handle
  title : String
  object_handles : List Handle
deriving DecidableEq, Repr

/-- CollectionObject.__init__ of src/docushare/dsobject.py lines 227-240:
    handle type must be Collection (ValueError), title must be str
    (TypeError), and all object_handles elements must be Handle instances
    (TypeError). -/
def CollectionObject.make (hdl : Handle) (title : PyValue)
    (object_handles : List PyValue) : Except PyError CollectionObject :=
  if hdl.type ≠ .Collection then .error .valueError
  else
    match title with
    | .vStr t =>
      match extractHandles object_handles with
      | none => .error .typeError
      | some hs => .ok ⟨hdl, t, hs⟩
    | _ => .error .typeError

inductive DsObject where
  | doc (d : DocumentObject)
  | ver (v : VersionObject)
  | col (c : CollectionObject)
deriving DecidableEq, Repr

/-! ## Client session operations (src/docushare/docushare.py) -/

/-- The session state a DocuShare instance owns: normalized base URL,
    the AmberUser cookie marking an authenticated session, the recorded
    username and the per-session object cache. -/
structure ClientState where
  baseUrl : String
  amberUser : Bool
  username : Option String
  cache : List (Handle × DsObject)

/-- DocuShare.is_logged_in (lines 447-450): AmberUser present in the
    session cookies. -/
def ClientState.is_logged_in (st : ClientState) : Bool := st.amberUser

/-- DocuShare.http_get of src/docushare/docushare.py lines 194-237 applied
    to the response the transport returned: raise_for_status on an error
    status, then the system-error classification (a classifier crash is
    wrapped as ParseError; a truthy error code raises
    DocuShareSystemError), then the not-authorized classification. -/
def http_get (r : HttpResponse) : Except PyError HttpResponse :=
  if 400 ≤ r.statusCode then .error .httpError
  else
    match parse_if_system_error_page r with
    | .error _ => .error .parseError
    | .ok (code?, _) =>
      if (code?.getD "") ≠ "" then .error .systemError
      else if is_not_authorized_page r then .error .notAuthorized
      else .ok r

/-- DocuShare.download of src/docushare/docushare.py lines 513-574: the
    logged-in check runs first, then the Get URL is resolved (wrong handle
    kinds fail there), the page is fetched, and a body classified as a
    not-found page raises DocuShareNotFoundError; otherwise the body is
    written to the destination path (the successful result is the
    response whose content is written). The second component lists the
    URLs fetched, in order. -/
def DocuShare.download (st : ClientState) (hdl : Handle)
    (oracle : String → HttpResponse) : Except PyError HttpResponse × List String :=
  if !st.is_logged_in then (.error .notLoggedIn, [])
  else
    match DocuShare.url st.baseUrl (some .Get) (some hdl) with
    | .error e => (.error e, [])
    | .ok u =>
      match http_get (oracle u) with
      | .error e => (.error e, [u])
      | .ok r =>
        if is_not_found_page r then (.error .notFound, [u])
        else (.ok r, [u])

/-- DocuShare.__load_properties (lines 576-610): logged-in check, Services
    URL, fetch, parse; parse failures become DocuShareParseError. -/
def loadProperties (st : ClientState) (oracle : String → HttpResponse) (hdl : Handle) :
    Except PyError (List (String × PyValue)) × List String :=
  if !st.is_logged_in then (.error .notLoggedIn, [])
  else
    match DocuShare.url st.baseUrl (some .Services) (some hdl) with
    | .error e => (.error e, [])
    | .ok u =>
      match http_get (oracle u) with
      | .error e => (.error e, [u])
      | .ok r =>
        match parse_property_page r.body hdl.type with
        | .error _ => (.error .parseError, [u])
        | .ok props => (.ok props, [u])

/-- DocuShare.__load_history (lines 612-643). -/
def loadHistory (st : ClientState) (oracle : String → HttpResponse) (hdl : Handle) :
    Except PyError (List Handle) × List String :=
  if !st.is_logged_in then (.error .notLoggedIn, [])
  else
    match DocuShare.url st.baseUrl (some .History) (some hdl) with
    | .error e => (.error e, [])
    | .ok u =>
      match http_get (oracle u) with
      | .error e => (.error e, [u])
      | .ok r =>
        match parse_history_page r.body with
        | .error _ => (.error .parseError, [u])
        | .ok hs => (.ok hs, [u])

/-- DocuShare.__load_collection (lines 645-676). -/
def loadCollection (st : ClientState) (oracle : String → HttpResponse) (hdl : Handle) :
    Except PyError (List Handle) × List String :=
  if !st.is_logged_in then (.error .notLoggedIn, [])
  else
    match DocuShare.url st.baseUrl (some .View) (some hdl) with
    | .error e => (.error e, [])
    | .ok u =>
      match http_get (oracle u) with
      | .error e => (.error e, [u])
      | .ok r =>
        match parse_collection_page r.body with
        | .error _ => (.error .parseError, [u])
        | .ok hs => (.ok hs, [u])

/-- DocuShare.object of src/docushare/docushare.py lines 678-757: the
    logged-in check runs before anything else; a cache hit returns the
    memoized object without fetching; a miss loads the pages the handle
    type requires, builds the domain object and caches it. A missing
    Title, _filename or Version Number key raises KeyError; the optional
    Document Control Number defaults to None. The second component lists
    the URLs fetched, in order. -/
def DocuShare.object (st : ClientState) (oracle : String → HttpResponse) (hdl : Handle) :
    Except PyError (DsObject × ClientState) × List String :=
  if !st.is_logged_in then (.error .notLoggedIn, [])
  else
    match List.lookup hdl st.cache with
    | some obj => (.ok (obj, st), [])
    | none =>
      match hdl.type with
      | .Collection =>
        match loadProperties st oracle hdl with
        | (.error e, log1) => (.error e, log1)
        | (.ok props, log1) =>
          match dictGet? props "Title" with
          | none => (.error .keyError, log1)
          | some titleV =>
            match loadCollection st oracle hdl with
            | (.error e, log2) => (.error e, log1 ++ log2)
            | (.ok handles, log2) =>
              match CollectionObject.make hdl titleV (handles.map .vHandle) with
              | .error e => (.error e, log1 ++ log2)
              | .ok c =>
                (.ok (.col c, { st with cache := st.cache ++ [(hdl, .col c)] }),
                  log1 ++ log2)
      | .Document =>
        match loadProperties st oracle hdl with
        | (.error e, log1) => (.error e, log1)
        | (.ok props, log1) =>
          match dictGet? props "Title" with
          | none => (.error .keyError, log1)
          | some titleV =>
            match dictGet? props "_filename" with
            | none => (.error .keyError, log1)
            | some fileV =>
              let dcnV := (dictGet? props "Document Control Number").getD .vNone
              match loadHistory st oracle hdl with
              | (.error e, log2) => (.error e, log1 ++ log2)
              | (.ok vhs, log2) =>
                match DocumentObject.make hdl titleV fileV dcnV (vhs.map .vHandle) with
                | .error e => (.error e, log1 ++ log2)
                | .ok d =>
                  (.ok (.doc d, { st with cache := st.cache ++ [(hdl, .doc d)] }),
                    log1 ++ log2)
      | .Version =>
        match loadProperties st oracle hdl with
        | (.error e, log1) => (.error e, log1)
        | (.ok props, log1) =>
          match dictGet? props "Title" with
          | none => (.error .keyError, log1)
          | some titleV =>
            match dictGet? props "_filename" with
            | none => (.error .keyError, log1)
            | some fileV =>
              match dictGet? props "Version Number" with
              | none => (.error .keyError, log1)
              | some vnV =>
                match VersionObject.make hdl titleV fileV vnV with
                | .error e => (.error e, log1)
                | .ok v =>
                  (.ok (.ver v, { st with cache := st.cache ++ [(hdl, .ver v)] }), log1)

/-! ## Handle tree (src/docushare/handle.py lines 126-308)

Nodes carry the Handle data, the _readonly_node flag and the ordered
children; the anytree parent setter consults the _pre_attach/_pre_detach
hooks before any structural change, so a hook error leaves the tree
untouched. -/

inductive BNode where
  | mk (typ : HandleType) (num : Nat) (readonlyNode : Bool) (children : List BNode)

def BNode.typ : BNode → HandleType
  | .mk t _ _ _ => t

def BNode.num : BNode → Nat
  | .mk _ n _ _ => n

def BNode.readonlyNode : BNode → Bool
  | .mk _ _ r _ => r

def BNode.children : BNode → List BNode
  | .mk _ _ _ c => c

def BNode.setReadonly (b : Bool) : BNode → BNode
  | .mk t n _ c => .mk t n b c

/-- HandleNode._pre_attach (src/docushare/handle.py lines 141-143):
    raises RuntimeError while the node is marked read-only. -/
def preAttach (n : BNode) : Except PyError Unit :=
  if n.readonlyNode then .error .runtimeError else .ok ()

/-- HandleNode._pre_detach (src/docushare/handle.py lines 145-147). -/
def preDetach (n : BNode) : Except PyError Unit :=
  if n.readonlyNode then .error .runtimeError else .ok ()

/-- Reattaching an attached node (assigning node.parent): anytree runs
    _pre_detach for the old parent and _pre_attach for the new one before
    mutating; the first hook error aborts with the structure unchanged. -/
def tryReattach (child : BNode) : Except PyError Unit :=
  match preDetach child with
  | .error e => .error e
  | .ok _ => preAttach child

/-- Detaching a node (assigning node.parent = None): anytree runs
    _pre_detach before mutating. -/
def tryDetach (child : BNode) : Except PyError Unit :=
  preDetach child

/-- DocumentHandleNode.__init__ (src/docushare/handle.py lines 249-250):
    a fresh leaf node, marked read-only by HandleNode.__init__. -/
def DocumentHandleNode.new (n : Nat) : BNode := .mk .Document n true []

/-- One child attachment of CollectionHandleNode.__init__ (lines 305-308):
    clear the child's read-only flag, attach through the guarded parent
    setter, restore the flag. -/
def attachStep (parent : BNode) (child : BNode) : Except PyError BNode :=
  let unlocked := child.setReadonly false
  match preAttach unlocked with
  | .error e => .error e
  | .ok _ =>
    .ok (BNode.mk parent.typ parent.num parent.readonlyNode
      (parent.children ++ [unlocked.setReadonly true]))

/-- CollectionHandleNode.__init__ (src/docushare/handle.py lines 297-308):
    the children type check is carried by BNode; each child is attached in
    list order via the flag dance of attachStep. -/
def CollectionHandleNode.new (n : Nat) (children : List BNode) : Except PyError BNode :=
  children.foldlM attachStep (BNode.mk .Collection n true [])

mutual

/-- anytree NodeMixin.leaves: the childless nodes of the subtree, in
    preorder; a node without children is its own single leaf. -/
def anytreeLeaves : BNode → List BNode
  | .mk t n r cs =>
    match cs with
    | [] => [.mk t n r []]
    | c :: rest => anytreeLeavesList (c :: rest)

def anytreeLeavesList : List BNode → List BNode
  | [] => []
  | c :: rest => anytreeLeaves c ++ anytreeLeavesList rest

end

/-- HandleNode.leaves (src/docushare/handle.py lines 199-202): the anytree
    leaves with Collection-typed nodes filtered out.
    DocumentHandleNode.leaves (lines 279-283) returns the node itself,
    which agrees with this formula on childless Document nodes. -/
def BNode.leaves (t : BNode) : List BNode :=
  (anytreeLeaves t).filter (fun n => !(n.typ == HandleType.Collection))

/-- The identifier data of a tree node, for readable statements. -/
def BNode.handleTag (n : BNode) : HandleType × Nat := (n.typ, n.num)

/-- The Get-resource URL that DocuShare.url resolves for a Document or
    Version handle in a given session. -/
def getResourceUrl (st : ClientState) (hdl : Handle) : String :=
  join_url (join_url st.baseUrl ["dsweb/"]) ["Get/", hdl.identifier]

mutual

/-- All nodes of a tree: the node itself and, recursively, its children. -/
def subnodes : BNode → List BNode
  | .mk t n r cs => .mk t n r cs :: subnodesList cs

def subnodesList : List BNode → List BNode
  | [] => []
  | c :: rest => subnodes c ++ subnodesList rest

end

/-- The trees the public constructors produce: a Document leaf from
    DocumentHandleNode, or a Collection node successfully built by
    CollectionHandleNode from constructed children. -/
inductive Constructed : BNode → Prop where
  | doc (n : Nat) : Constructed (DocumentHandleNode.new n)
  | col (n : Nat) (cs : List BNode) (t : BNode) :
      (∀ c ∈ cs, Constructed c) → CollectionHandleNode.new n cs = .ok t → Constructed t

/-- Structural invariant of constructed trees: every node is a read-only
    Document leaf or a read-only Collection node over such children. -/
inductive GoodNode : BNode → Prop where
  | doc (n : Nat) : GoodNode (.mk .Document n true [])
  | col (n : Nat) (cs : List BNode) :
      (∀ c ∈ cs, GoodNode c) → GoodNode (.mk .Collection n true cs)

/-! ## Concrete sample data used by the closed witnesses -/

/-- A DocuShare system-error page: both hidden fields present, the error
    code input lacking its value attribute. -/
def sampleSystemErrorPage : List Dom :=
  [.element "html" [] [
    .element "body" [] [
      .element "form" [] [
        .element "input" [("type", "hidden"), ("name", "dserrorcode")] [],
        .element "input" [("type", "hidden"), ("name", "detail_message"),
          ("value", "Object does not exist")] []]]]]

/-- A normal content page with neither hidden error field. -/
def sampleContentPage : List Dom :=
  [.element "html" [] [
    .element "body" [] [
      .element "h1" [] [.textNode "Welcome"],
      .element "p" [] [.textNode "Hello"]]]]

/-- The DocuShare Not Found page body (returned with HTTP 200). -/
def sampleNotFoundPage : List Dom :=
  [.element "html" [] [
    .element "body" [] [
      .element "h2" [] [.textNode " Not Found "],
      .element "p" [] [.textNode "The object does not exist."]]]]

/-- The transport response carrying the Not Found page with HTTP 200. -/
def sampleNotFoundResponse : HttpResponse :=
  ⟨200, [("Content-Type", "text/html; charset=UTF-8")], sampleNotFoundPage⟩

/-! ## Round-trip lemmas for the two Handle variants -/

/-- First character of each handle-type identifier. -/
def firstChar : HandleType → Char
  | .Collection => 'C'
  | .Document => 'D'
  | .Version => 'V'

/-- Remaining characters of each identifier-dash pattern. -/
def restId : HandleType → List Char
  | .Collection => "ollection-".data
  | .Document => "ocument-".data
  | .Version => "ersion-".data

theorem idDash_data (t : HandleType) : (t.identifier ++ "-").data = firstChar t :: restId t := by
  cases t <;> rfl

theorem firstChar_ne {t t' : HandleType} (h : t ≠ t') : firstChar t' ≠ firstChar t := by
  cases t <;> cases t' <;> first
    | exact absurd rfl h
    | decide

theorem matchTypeNum_self (t : HandleType) (ds : List Char) (hne : ds ≠ [])
    (hds : ∀ c ∈ ds, c.isDigit = true) :
    matchTypeNum t ((t.identifier ++ "-").data ++ ds) = some (parseNatDigits ds) := by
  unfold matchTypeNum
  rw [stripPre_self_append]
  have hall : ds.all (fun c => c.isDigit) = true := List.all_eq_true.mpr hds
  simp [hne, hall]

theorem matchTypeNum_mismatch (t u : HandleType) (h : t ≠ u) (ds : List Char) :
    matchTypeNum t ((u.identifier ++ "-").data ++ ds) = none := by
  unfold matchTypeNum
  rw [idDash_data t, idDash_data u, List.cons_append, stripPre_ne_first (firstChar_ne h)]

theorem strict_matchTypeNum_self (t : HandleType) (ds : List Char)
    (hlen : ds.length = Strict.numOfDigits t) (hds : ∀ c ∈ ds, c.isDigit = true) :
    Strict.matchTypeNum t ((t.identifier ++ "-").data ++ ds) = some (parseNatDigits ds) := by
  unfold Strict.matchTypeNum
  rw [stripPre_self_append]
  have hall : ds.all (fun c => c.isDigit) = true := List.all_eq_true.mpr hds
  simp [hlen, hall]

theorem strict_matchTypeNum_mismatch (t u : HandleType) (h : t ≠ u) (ds : List Char) :
    Strict.matchTypeNum t ((u.identifier ++ "-").data ++ ds) = none := by
  unfold Strict.matchTypeNum
  rw [idDash_data t, idDash_data u, List.cons_append, stripPre_ne_first (firstChar_ne h)]

theorem handleFromData_self (t : HandleType) (ds : List Char) (hne : ds ≠ [])
    (hds : ∀ c ∈ ds, c.isDigit = true) :
    handleFromData ((t.identifier ++ "-").data ++ ds) = .ok ⟨t, parseNatDigits ds⟩ := by
  cases t
  · unfold handleFromData
    rw [matchTypeNum_self HandleType.Collection ds hne hds]
  · unfold handleFromData
    rw [matchTypeNum_mismatch HandleType.Collection HandleType.Document (by decide) ds,
      matchTypeNum_self HandleType.Document ds hne hds]
  · unfold handleFromData
    rw [matchTypeNum_mismatch HandleType.Collection HandleType.Version (by decide) ds,
      matchTypeNum_mismatch HandleType.Document HandleType.Version (by decide) ds,
      matchTypeNum_self HandleType.Version ds hne hds]

theorem Strict.fromData_self (t : HandleType) (ds : List Char)
    (hlen : ds.length = Strict.numOfDigits t) (hds : ∀ c ∈ ds, c.isDigit = true) :
    Strict.fromData ((t.identifier ++ "-").data ++ ds) = .ok ⟨t, parseNatDigits ds⟩ := by
  cases t
  · unfold Strict.fromData
    rw [strict_matchTypeNum_self HandleType.Collection ds hlen hds]
  · unfold Strict.fromData
    rw [strict_matchTypeNum_mismatch HandleType.Collection HandleType.Document (by decide) ds,
      strict_matchTypeNum_self HandleType.Document ds hlen hds]
  · unfold Strict.fromData
    rw [strict_matchTypeNum_mismatch HandleType.Collection HandleType.Version (by decide) ds,
      strict_matchTypeNum_mismatch HandleType.Document HandleType.Version (by decide) ds,
      strict_matchTypeNum_self HandleType.Version ds hlen hds]

theorem handle_identifier_data (t : HandleType) (n : Nat) :
    (Handle.identifier ⟨t, n⟩).data = (t.identifier ++ "-").data ++ decChars n := by
  show (t.identifier ++ "-" ++ String.mk (decChars n)).data = _
  rw [String.data_append]

theorem handle_roundtrip (t : HandleType) (n : Nat) :
    Handle.from_str (Handle.identifier ⟨t, n⟩) = .ok ⟨t, n⟩ := by
  unfold Handle.from_str
  rw [handle_identifier_data,
    pyDollarData_of_digits_suffix _ _ (decChars_ne_nil n) (decChars_all_digits n),
    handleFromData_self t (decChars n) (decChars_ne_nil n) (decChars_all_digits n),
    parseNatDigits_decChars n]

theorem strict_identifier_data (t : HandleType) (n : Nat) :
    (Strict.identifier ⟨t, n⟩).data
      = (t.identifier ++ "-").data ++ padZeros (Strict.numOfDigits t) (decChars n) := by
  show (t.identifier ++ "-" ++ String.mk (padZeros (Strict.numOfDigits t) (decChars n))).data = _
  rw [String.data_append]

theorem padZeros_length {w : Nat} (ds : List Char) (h : ds.length ≤ w) :
    (padZeros w ds).length = w := by
  unfold padZeros
  rw [List.length_append, List.length_replicate]
  omega

theorem padZeros_all_digits (w : Nat) (ds : List Char)
    (hds : ∀ c ∈ ds, c.isDigit = true) : ∀ c ∈ padZeros w ds, c.isDigit = true := by
  intro c hc
  rcases List.mem_append.mp hc with h | h
  · exact zeros_all_digits _ c h
  · exact hds c h

theorem padZeros_ne_nil {w : Nat} (ds : List Char) (hne : ds ≠ []) : padZeros w ds ≠ [] := by
  unfold padZeros
  intro h
  rw [List.append_eq_nil] at h
  exact hne h.2

theorem strict_roundtrip (t : HandleType) (n : Nat) (hcap : n ≤ Strict.maxNumber t) :
    Strict.from_str (Strict.identifier ⟨t, n⟩) = .ok ⟨t, n⟩ := by
  have hw : 1 ≤ Strict.numOfDigits t := by cases t <;> decide
  have hlt : n < 10 ^ Strict.numOfDigits t := by
    have : (0:Nat) < 10 ^ Strict.numOfDigits t := Nat.pos_pow_of_pos _ (by norm_num)
    unfold Strict.maxNumber at hcap
    omega
  have hlen : (padZeros (Strict.numOfDigits t) (decChars n)).length = Strict.numOfDigits t :=
    padZeros_length _ (decChars_length_le hw hlt)
  have hdig := padZeros_all_digits (Strict.numOfDigits t) (decChars n) (decChars_all_digits n)
  have hval : parseNatDigits (padZeros (Strict.numOfDigits t) (decChars n)) = n := by
    unfold padZeros
    rw [parseNatDigits_replicate_zero_append, parseNatDigits_decChars]
  unfold Strict.from_str
  rw [strict_identifier_data,
    pyDollarData_of_digits_suffix _ _ (padZeros_ne_nil _ (decChars_ne_nil n)) hdig,
    Strict.fromData_self t _ hlen hdig, hval]

example : Handle.from_str "Collection-12345" = .ok ⟨.Collection, 12345⟩ := by rfl

example : Handle.from_str "Collection-1" = .ok ⟨.Collection, 1⟩ := by rfl

example : Strict.from_str "Collection-1" = .error .valueError := by rfl

example : Handle.identifier ⟨.Document, 12345⟩ = "Document-12345" := by rfl

example : Strict.identifier ⟨.Document, 42⟩ = "Document-00042" := by rfl

example : Handle.from_str "Version 123456" = .error .invalidHandle := by rfl

example : DocuShare.url "https://example.org/docushare/" (some .Services)
    (some ⟨.Document, 12345⟩)
    = .ok "https://example.org/docushare/dsweb/Services/Document-12345" := by rfl

example : pyStrip "  Not Found  " = "Not Found" := by rfl

example : strContains "Error: Not Found here" "Not Found" = true := by rfl

/-! ## Claim theorems -/

/-- C2: for every kind in Collection, Document, Version and every
    non-negative number within the kind's digit capacity (5 digits for
    Collection and Document, 6 for Version), parsing the identifier string
    of Handle(kind, n) yields Handle(kind, n) — in the permissive variant
    of src/docushare/handle.py and in the strict zero-padding variant of
    src/docushare.py alike. -/
theorem C2_parse_identifier_roundtrip (t : HandleType) (n : Nat)
    (hcap : n ≤ Strict.maxNumber t) :
    Handle.from_str (Handle.identifier ⟨t, n⟩) = .ok ⟨t, n⟩ ∧
    Strict.from_str (Strict.identifier ⟨t, n⟩) = .ok ⟨t, n⟩ :=
  ⟨handle_roundtrip t n, strict_roundtrip t n hcap⟩

/-- Witness for C2 at kind Document, number 12345. -/
theorem C2_parse_identifier_roundtrip_witness :
    12345 ≤ Strict.maxNumber .Document ∧
    (Handle.from_str (Handle.identifier ⟨.Document, 12345⟩) = .ok ⟨.Document, 12345⟩ ∧
     Strict.from_str (Strict.identifier ⟨.Document, 12345⟩) = .ok ⟨.Document, 12345⟩) :=
  ⟨by decide, C2_parse_identifier_roundtrip .Document 12345 (by decide)⟩

/-- C3, evaluation at the failing input: Handle.from_str of
    src/docushare/handle.py accepts the wrong-digit-count string
    Collection-1 and returns Handle(Collection, 1), where the claim — and
    the repository's own test suite (test_from_str_collection_5 in
    src/tests/test_handle.py) — require an InvalidHandle failure. The
    strict variant of src/docushare.py does reject the same string. -/
theorem C3_wrong_digit_count_accepted :
    Handle.from_str "Collection-1" = .ok ⟨.Collection, 1⟩ ∧
    Strict.from_str "Collection-1" = .error .valueError := by
  exact ⟨rfl, rfl⟩

/-- C6: with base URL https://example.org/docushare/, url(Services,
    Document-12345) is exactly
    https://example.org/docushare/dsweb/Services/Document-12345; and a
    handle of the wrong kind for History (Document required), Get
    (Document or Version required) or View (Collection required) raises
    ValueError instead of returning a URL. -/
theorem C6_url_resolution :
    (DocuShare.url "https://example.org/docushare/" (some .Services)
      (some ⟨.Document, 12345⟩)
      = .ok "https://example.org/docushare/dsweb/Services/Document-12345") ∧
    (∀ (b : String) (h : Handle), h.type ≠ .Document →
      DocuShare.url b (some .History) (some h) = .error .valueError) ∧
    (∀ (b : String) (h : Handle), h.type ≠ .Document → h.type ≠ .Version →
      DocuShare.url b (some .Get) (some h) = .error .valueError) ∧
    (∀ (b : String) (h : Handle), h.type ≠ .Collection →
      DocuShare.url b (some .View) (some h) = .error .valueError) := by
  refine ⟨by rfl, ?_, ?_, ?_⟩
  · intro b h hne
    simp [DocuShare.url, hne]
  · intro b h h1 h2
    simp [DocuShare.url, h1, h2]
  · intro b h hne
    simp [DocuShare.url, hne]

/-- Witness for C6 applying the wrong-kind clauses at concrete handles. -/
theorem C6_url_resolution_witness :
    DocuShare.url "https://example.org/docushare/" (some .History)
      (some ⟨.Version, 123456⟩) = .error .valueError ∧
    DocuShare.url "https://example.org/docushare/" (some .Get)
      (some ⟨.Collection, 10101⟩) = .error .valueError ∧
    DocuShare.url "https://example.org/docushare/" (some .View)
      (some ⟨.Document, 12345⟩) = .error .valueError :=
  ⟨C6_url_resolution.2.1 _ _ (by decide),
   C6_url_resolution.2.2.1 _ _ (by decide) (by decide),
   C6_url_resolution.2.2.2 _ _ (by decide)⟩

/-- C5: parse_if_system_error_page returns (None, None) for every page
    with neither an input field named dserrorcode nor one named
    detail_message; and on an HTML response carrying both fields it
    returns the populated pair, an absent value attribute defaulting to
    the empty string rather than failing. -/
theorem C5_system_error_classifier (r : HttpResponse) :
    (findWithAttr "input" "name" "dserrorcode" r.body = none →
     findWithAttr "input" "name" "detail_message" r.body = none →
     parse_if_system_error_page r = .ok (none, none)) ∧
    (contentTypeIsHtml r = true →
     ∀ e1 e2, findWithAttr "input" "name" "dserrorcode" r.body = some e1 →
       findWithAttr "input" "name" "detail_message" r.body = some e2 →
       parse_if_system_error_page r
         = .ok (some ((e1.attr? "value").getD ""), some ((e2.attr? "value").getD ""))) := by
  constructor
  · intro h1 h2
    cases hct : contentTypeIsHtml r with
    | false => simp [parse_if_system_error_page, hct]
    | true => simp [parse_if_system_error_page, hct, h1, h2]
  · intro hct e1 e2 h1 h2
    simp [parse_if_system_error_page, hct, h1, h2]

/-- Witness for C5: the neither-field clause on a normal content page and
    the both-fields clause on a system-error page whose error-code input
    lacks its value attribute (the code defaults to the empty string). -/
theorem C5_system_error_classifier_witness :
    parse_if_system_error_page ⟨200, [("Content-Type", "text/html")], sampleContentPage⟩
      = .ok (none, none) ∧
    parse_if_system_error_page ⟨200, [("Content-Type", "text/html")], sampleSystemErrorPage⟩
      = .ok (some "", some "Object does not exist") := by
  constructor
  · exact (C5_system_error_classifier _).1 (by rfl) (by rfl)
  · exact (C5_system_error_classifier
      ⟨200, [("Content-Type", "text/html")], sampleSystemErrorPage⟩).2
      (by rfl) _ _ (by rfl) (by rfl)

/-- C9: while the session is not logged in (no AmberUser cookie), both
    object(handle) and download(handle, path) raise the precondition error
    and perform no network fetch at all (the fetched-URL log is empty). -/
theorem C9_not_logged_in_precondition (st : ClientState)
    (oracle : String → HttpResponse) (hdl : Handle) (hno : st.amberUser = false) :
    DocuShare.object st oracle hdl = (.error .notLoggedIn, []) ∧
    DocuShare.download st hdl oracle = (.error .notLoggedIn, []) := by
  constructor
  · simp [DocuShare.object, ClientState.is_logged_in, hno]
  · simp [DocuShare.download, ClientState.is_logged_in, hno]

/-- Witness for C9 on a fresh session. -/
theorem C9_not_logged_in_precondition_witness :
    DocuShare.object ⟨"https://example.org/docushare/", false, none, []⟩
      (fun _ => sampleNotFoundResponse) ⟨.Document, 12345⟩
      = (.error .notLoggedIn, []) ∧
    DocuShare.download ⟨"https://example.org/docushare/", false, none, []⟩
      ⟨.Document, 12345⟩ (fun _ => sampleNotFoundResponse)
      = (.error .notLoggedIn, []) :=
  C9_not_logged_in_precondition _ _ _ rfl

/-! ## Handle-tree lemmas (for C7 and C8) -/

theorem BNode.typ_mk (t : HandleType) (n : Nat) (r : Bool) (c : List BNode) :
    (BNode.mk t n r c).typ = t := rfl

theorem BNode.num_mk (t : HandleType) (n : Nat) (r : Bool) (c : List BNode) :
    (BNode.mk t n r c).num = n := rfl

theorem BNode.readonlyNode_mk (t : HandleType) (n : Nat) (r : Bool) (c : List BNode) :
    (BNode.mk t n r c).readonlyNode = r := rfl

theorem BNode.children_mk (t : HandleType) (n : Nat) (r : Bool) (c : List BNode) :
    (BNode.mk t n r c).children = c := rfl

theorem setReadonly_setReadonly (c : BNode) (a b : Bool) :
    (c.setReadonly a).setReadonly b = c.setReadonly b := by
  cases c
  rfl

theorem attachStep_ok (parent c : BNode) :
    attachStep parent c = .ok (BNode.mk parent.typ parent.num parent.readonlyNode
      (parent.children ++ [c.setReadonly true])) := by
  cases c
  rfl

theorem foldlM_attachStep (cs : List BNode) :
    ∀ (t : HandleType) (m : Nat) (r : Bool) (acc : List BNode),
    List.foldlM attachStep (BNode.mk t m r acc) cs
      = .ok (BNode.mk t m r (acc ++ cs.map (BNode.setReadonly true))) := by
  induction cs with
  | nil =>
    intro t m r acc
    simp only [List.foldlM_nil, List.map_nil, List.append_nil]
    rfl
  | cons c rest ih =>
    intro t m r acc
    rw [List.foldlM_cons, attachStep_ok]
    simp only [BNode.typ_mk, BNode.num_mk, BNode.readonlyNode_mk, BNode.children_mk]
    show List.foldlM attachStep (BNode.mk t m r (acc ++ [c.setReadonly true])) rest = _
    rw [ih]
    simp

theorem CollectionHandleNode.new_eq (n : Nat) (cs : List BNode) :
    CollectionHandleNode.new n cs
      = .ok (BNode.mk .Collection n true (cs.map (BNode.setReadonly true))) := by
  unfold CollectionHandleNode.new
  simpa using foldlM_attachStep cs .Collection n true []

theorem goodNode_setReadonly_true {c : BNode} (h : GoodNode c) : c.setReadonly true = c := by
  cases h <;> rfl

theorem goodNode_readonly {c : BNode} (h : GoodNode c) : c.readonlyNode = true := by
  cases h <;> rfl

theorem constructed_good {t : BNode} (h : Constructed t) : GoodNode t := by
  induction h with
  | doc n => exact GoodNode.doc n
  | col n cs t hcs hok ih =>
    rw [CollectionHandleNode.new_eq] at hok
    obtain rfl := Except.ok.inj hok
    apply GoodNode.col
    intro c' hc'
    rcases List.mem_map.mp hc' with ⟨c, hc, rfl⟩
    rw [goodNode_setReadonly_true (ih c hc)]
    exact ih c hc

theorem mem_subnodesList {x : BNode} :
    ∀ {cs : List BNode}, x ∈ subnodesList cs → ∃ c ∈ cs, x ∈ subnodes c := by
  intro cs
  induction cs with
  | nil => intro h; simp [subnodesList] at h
  | cons c rest ih =>
    intro h
    rw [subnodesList] at h
    rcases List.mem_append.mp h with h | h
    · exact ⟨c, List.mem_cons_self c rest, h⟩
    · rcases ih h with ⟨c', hc', hx⟩
      exact ⟨c', List.mem_cons_of_mem c hc', hx⟩

theorem goodNode_subnodes {t : BNode} (h : GoodNode t) : ∀ x ∈ subnodes t, GoodNode x := by
  induction h with
  | doc n =>
    intro x hx
    simp [subnodes, subnodesList] at hx
    subst hx
    exact GoodNode.doc n
  | col n cs hcs ih =>
    intro x hx
    rw [subnodes] at hx
    rcases List.mem_cons.mp hx with rfl | hx'
    · exact GoodNode.col n cs hcs
    · rcases mem_subnodesList hx' with ⟨c, hc, hxc⟩
      exact ih c hc x hxc

theorem mem_anytreeLeavesList {x : BNode} :
    ∀ {cs : List BNode}, x ∈ anytreeLeavesList cs → ∃ c ∈ cs, x ∈ anytreeLeaves c := by
  intro cs
  induction cs with
  | nil => intro h; simp [anytreeLeavesList] at h
  | cons c rest ih =>
    intro h
    rw [anytreeLeavesList] at h
    rcases List.mem_append.mp h with h | h
    · exact ⟨c, List.mem_cons_self c rest, h⟩
    · rcases ih h with ⟨c', hc', hx⟩
      exact ⟨c', List.mem_cons_of_mem c hc', hx⟩

theorem goodNode_anytreeLeaves_typ {t : BNode} (h : GoodNode t) :
    ∀ x ∈ anytreeLeaves t, x.typ = .Document ∨ x.typ = .Collection := by
  induction h with
  | doc n =>
    intro x hx
    simp [anytreeLeaves] at hx
    subst hx
    left
    rfl
  | col n cs hcs ih =>
    intro x hx
    cases cs with
    | nil =>
      simp [anytreeLeaves] at hx
      subst hx
      right
      rfl
    | cons c rest =>
      rw [anytreeLeaves] at hx
      rcases mem_anytreeLeavesList hx with ⟨c', hc', hxc⟩
      exact ih c' hc' x hxc

/-- C7: for the tree with root Collection-100 whose children are
    Document-101 and Collection-200, the latter containing Document-201,
    leaves yields exactly [Document-101, Document-201] in that order; in
    general leaves of a constructed tree yields only Document-typed nodes,
    and a childless Collection contributes no leaf at all. -/
theorem C7_collection_tree_leaves :
    (∃ sub root,
      CollectionHandleNode.new 200 [DocumentHandleNode.new 201] = .ok sub ∧
      CollectionHandleNode.new 100 [DocumentHandleNode.new 101, sub] = .ok root ∧
      root.leaves.map BNode.handleTag = [(.Document, 101), (.Document, 201)]) ∧
    (∀ t, Constructed t → ∀ x ∈ t.leaves, x.typ = .Document) ∧
    (∀ (n : Nat) (sub : BNode), CollectionHandleNode.new n [] = .ok sub →
      sub.leaves = []) := by
  refine ⟨?_, ?_, ?_⟩
  · exact ⟨BNode.mk .Collection 200 true [BNode.mk .Document 201 true []],
      BNode.mk .Collection 100 true [BNode.mk .Document 101 true [],
        BNode.mk .Collection 200 true [BNode.mk .Document 201 true []]],
      by rfl, by rfl, by rfl⟩
  · intro t ht x hx
    have hg := constructed_good ht
    unfold BNode.leaves at hx
    rcases List.mem_filter.mp hx with ⟨hmem, hpred⟩
    rcases goodNode_anytreeLeaves_typ hg x hmem with h | h
    · exact h
    · rw [h] at hpred
      simp at hpred
  · intro n sub hok
    rw [CollectionHandleNode.new_eq] at hok
    obtain rfl := Except.ok.inj hok
    rfl

/-- Witness for C7: the general only-Documents clause applied to the
    constructed subtree Collection-200 over Document-201. -/
theorem C7_collection_tree_leaves_witness :
    Constructed (BNode.mk .Collection 200 true [BNode.mk .Document 201 true []]) ∧
    ∀ x ∈ (BNode.mk .Collection 200 true [BNode.mk .Document 201 true []]).leaves,
      x.typ = .Document := by
  have hc : Constructed (BNode.mk .Collection 200 true [BNode.mk .Document 201 true []]) := by
    apply Constructed.col 200 [DocumentHandleNode.new 201]
    · intro c hc
      rcases List.mem_singleton.mp hc with rfl
      exact Constructed.doc 201
    · rfl
  exact ⟨hc, C7_collection_tree_leaves.2.1 _ hc⟩

/-- C8: every node of a tree built by the CollectionHandleNode constructor
    is left marked read-only, and any later attempt to reattach it (set a
    new parent) or detach it fails fast with the structural-mutation
    RuntimeError — the pre-attach/pre-detach hooks fire before any
    structural change, so the parent/child structure of a constructed tree
    never changes. -/
theorem C8_constructed_tree_immutable (t : BNode) (ht : Constructed t) :
    ∀ x ∈ subnodes t, x.readonlyNode = true ∧
      tryReattach x = .error .runtimeError ∧ tryDetach x = .error .runtimeError := by
  intro x hx
  have hg := goodNode_subnodes (constructed_good ht) x hx
  have hro := goodNode_readonly hg
  refine ⟨hro, ?_, ?_⟩
  · simp [tryReattach, preDetach, preAttach, hro]
  · simp [tryDetach, preDetach, hro]

/-- Witness for C8: the constructed two-node tree Collection-200 over
    Document-201; mutation of the attached leaf fails. -/
theorem C8_constructed_tree_immutable_witness :
    Constructed (BNode.mk .Collection 200 true [BNode.mk .Document 201 true []]) ∧
    BNode.mk .Document 201 true []
      ∈ subnodes (BNode.mk .Collection 200 true [BNode.mk .Document 201 true []]) ∧
    ((BNode.mk .Document 201 true []).readonlyNode = true ∧
      tryReattach (BNode.mk .Document 201 true []) = .error .runtimeError ∧
      tryDetach (BNode.mk .Document 201 true []) = .error .runtimeError) := by
  have hc : Constructed (BNode.mk .Collection 200 true [BNode.mk .Document 201 true []]) := by
    apply Constructed.col 200 [DocumentHandleNode.new 201]
    · intro c hc
      rcases List.mem_singleton.mp hc with rfl
      exact Constructed.doc 201
    · rfl
  have hmem : BNode.mk .Document 201 true []
      ∈ subnodes (BNode.mk .Collection 200 true [BNode.mk .Document 201 true []]) := by
    show _ ∈ [BNode.mk .Collection 200 true [BNode.mk .Document 201 true []],
      BNode.mk .Document 201 true []]
    exact List.mem_cons_of_mem _ (List.mem_cons_self _ _)
  exact ⟨hc, hmem, C8_constructed_tree_immutable _ hc _ hmem⟩

/-! ## DocumentObject lemmas (for C10) -/

theorem extractHandles_map (hs : List Handle) :
    extractHandles (hs.map .vHandle) = some hs := by
  induction hs with
  | nil => rfl
  | cons h rest ih => simp [extractHandles, ih]

theorem extractHandles_none {vs : List PyValue}
    (h : ∃ v ∈ vs, ∀ hh : Handle, v ≠ .vHandle hh) : extractHandles vs = none := by
  induction vs with
  | nil =>
    rcases h with ⟨v, hv, _⟩
    simp at hv
  | cons v rest ih =>
    rcases h with ⟨v', hv', hbad⟩
    rcases List.mem_cons.mp hv' with rfl | hmem
    · cases v' with
      | vHandle hh => exact absurd rfl (hbad hh)
      | vStr s => rfl
      | vInt n => rfl
      | vNone => rfl
      | vOther => rfl
    · cases v with
      | vHandle hh => simp [extractHandles, ih ⟨v', hmem, hbad⟩]
      | vStr s => rfl
      | vInt n => rfl
      | vNone => rfl
      | vOther => rfl

theorem versionHandlesCheck_ok {vhs : List PyValue} {hs : List Handle}
    (h : versionHandlesCheck vhs = .ok hs) : ∀ x ∈ hs, x.type = .Version := by
  unfold versionHandlesCheck at h
  cases hex : extractHandles vhs with
  | none =>
    rw [hex] at h
    simp at h
  | some hs' =>
    simp only [hex] at h
    by_cases hall : hs'.all (fun h => h.type == HandleType.Version) = true
    · rw [if_pos hall] at h
      obtain rfl := Except.ok.inj h
      intro x hx
      have := List.all_eq_true.mp hall x hx
      simpa using this
    · rw [if_neg hall] at h
      simp at h

theorem DocumentObject.make_ok_versions {hdl : Handle} {title filename dcn : PyValue}
    {vhs : List PyValue} {obj : DocumentObject}
    (h : DocumentObject.make hdl title filename dcn vhs = .ok obj) :
    ∀ x ∈ obj.version_handles, x.type = .Version := by
  unfold DocumentObject.make at h
  cases htf : fileObjectChecks title filename with
  | error e =>
    rw [htf] at h
    simp at h
  | ok tf =>
    obtain ⟨ts, fs⟩ := tf
    simp only [htf] at h
    by_cases hd : hdl.type ≠ .Document
    · rw [if_pos hd] at h
      simp at h
    · rw [if_neg hd] at h
      cases dcn with
      | vStr d =>
        cases hvc : versionHandlesCheck vhs with
        | error e =>
          rw [hvc] at h
          simp [Except.map] at h
        | ok hs =>
          simp only [hvc, Except.map] at h
          obtain rfl := Except.ok.inj h
          intro x hx
          exact versionHandlesCheck_ok hvc x hx
      | vNone =>
        cases hvc : versionHandlesCheck vhs with
        | error e =>
          rw [hvc] at h
          simp [Except.map] at h
        | ok hs =>
          simp only [hvc, Except.map] at h
          obtain rfl := Except.ok.inj h
          intro x hx
          exact versionHandlesCheck_ok hvc x hx
      | vInt n => simp at h
      | vHandle hh => simp at h
      | vOther => simp at h

/-- C10: a successfully constructed DocumentObject only ever exposes
    Version-typed Handle instances through version_handles; construction
    with a list containing a non-Handle element fails with TypeError, and
    with a Handle of another kind fails with ValueError. -/
theorem C10_document_object_invariant :
    (∀ (hdl : Handle) (title filename dcn : PyValue) (vhs : List PyValue)
        (obj : DocumentObject),
      DocumentObject.make hdl title filename dcn vhs = .ok obj →
      ∀ x ∈ obj.version_handles, x.type = .Version) ∧
    (∀ (hdl : Handle) (ts fs : String) (vhs : List PyValue),
      hdl.type = .Document → (∃ v ∈ vhs, ∀ hh : Handle, v ≠ .vHandle hh) →
      DocumentObject.make hdl (.vStr ts) (.vStr fs) .vNone vhs = .error .typeError) ∧
    (∀ (hdl : Handle) (ts fs : String) (hs : List Handle),
      hdl.type = .Document → (∃ x ∈ hs, x.type ≠ .Version) →
      DocumentObject.make hdl (.vStr ts) (.vStr fs) .vNone (hs.map .vHandle)
        = .error .valueError) := by
  refine ⟨fun hdl title filename dcn vhs obj h => DocumentObject.make_ok_versions h, ?_, ?_⟩
  · intro hdl ts fs vhs hd hbad
    have hex := extractHandles_none hbad
    simp [DocumentObject.make, fileObjectChecks, versionHandlesCheck, Except.map, hex, hd]
  · intro hdl ts fs hs hd hbad
    have hex := extractHandles_map hs
    have hall : hs.all (fun h => h.type == HandleType.Version) = false := by
      rcases hbad with ⟨x, hx, hxt⟩
      exact List.all_eq_false.mpr ⟨x, hx, by simp [hxt]⟩
    simp [DocumentObject.make, fileObjectChecks, versionHandlesCheck, Except.map, hex, hall,
      hd]

/-- Witness for C10: a successful construction exposing only a Version
    handle, a failing construction with a string in the list, and a
    failing construction with a Collection handle in the list. -/
theorem C10_document_object_invariant_witness :
    (DocumentObject.make ⟨.Document, 101⟩ (.vStr "T") (.vStr "t.pdf") .vNone
        [.vHandle ⟨.Version, 123456⟩]
      = .ok ⟨⟨.Document, 101⟩, "T", "t.pdf", none, [⟨.Version, 123456⟩]⟩ ∧
     ∀ x ∈ [(⟨.Version, 123456⟩ : Handle)], x.type = .Version) ∧
    DocumentObject.make ⟨.Document, 101⟩ (.vStr "T") (.vStr "t.pdf") .vNone
      [.vHandle ⟨.Version, 123456⟩, .vStr "oops"] = .error .typeError ∧
    DocumentObject.make ⟨.Document, 101⟩ (.vStr "T") (.vStr "t.pdf") .vNone
      ([⟨.Version, 123456⟩, ⟨.Collection, 10101⟩].map .vHandle) = .error .valueError := by
  refine ⟨⟨by rfl, ?_⟩, ?_, ?_⟩
  · exact C10_document_object_invariant.1 ⟨.Document, 101⟩ (.vStr "T") (.vStr "t.pdf") .vNone
      [.vHandle ⟨.Version, 123456⟩] ⟨⟨.Document, 101⟩, "T", "t.pdf", none, [⟨.Version, 123456⟩]⟩
      (by rfl)
  · exact C10_document_object_invariant.2.1 _ _ _ _ rfl
      ⟨.vStr "oops", by simp, fun hh => by simp⟩
  · exact C10_document_object_invariant.2.2 _ _ _ _ rfl
      ⟨⟨.Collection, 10101⟩, by simp, by decide⟩

/-- C4: in a logged-in session, for a Document or Version handle whose
    Get-page fetch comes back with HTTP 200 but an HTML body carrying an
    h2 heading containing Not Found (and none of the system-error or
    not-authorized markers), download raises DocuShareNotFoundError
    instead of writing the body to the destination path. -/
theorem C4_download_not_found (st : ClientState) (hdl : Handle)
    (oracle : String → HttpResponse)
    (hlog : st.amberUser = true)
    (hk : hdl.type = .Document ∨ hdl.type = .Version)
    (hstatus : (oracle (getResourceUrl st hdl)).statusCode = 200)
    (hct : contentTypeIsHtml (oracle (getResourceUrl st hdl)) = true)
    (h2nf : ∃ e ∈ findAllList "h2" (oracle (getResourceUrl st hdl)).body,
      strContains (pyStrip e.text) "Not Found" = true)
    (hnoerr : findWithAttr "input" "name" "dserrorcode"
      (oracle (getResourceUrl st hdl)).body = none)
    (hnodet : findWithAttr "input" "name" "detail_message"
      (oracle (getResourceUrl st hdl)).body = none)
    (hnoauth : is_not_authorized_page (oracle (getResourceUrl st hdl)) = false) :
    DocuShare.download st hdl oracle = (.error .notFound, [getResourceUrl st hdl]) := by
  have hurl : DocuShare.url st.baseUrl (some .Get) (some hdl)
      = .ok (getResourceUrl st hdl) := by
    rcases hk with h | h <;> simp [DocuShare.url, getResourceUrl, h]
  have hsys : parse_if_system_error_page (oracle (getResourceUrl st hdl))
      = .ok (none, none) := by
    simp [parse_if_system_error_page, hct, hnoerr, hnodet]
  have hget : http_get (oracle (getResourceUrl st hdl))
      = .ok (oracle (getResourceUrl st hdl)) := by
    simp [http_get, hstatus, hsys, hnoauth]
  have hnf : is_not_found_page (oracle (getResourceUrl st hdl)) = true := by
    rcases h2nf with ⟨e, he, hc⟩
    unfold is_not_found_page
    rw [hct]
    simp only [Bool.true_and]
    exact List.any_eq_true.mpr ⟨e, he, hc⟩
  simp [DocuShare.download, ClientState.is_logged_in, hlog, hurl, hget, hnf]

/-- Witness for C4: a logged-in session, a Version handle, and a transport
    returning the HTTP 200 Not Found page. -/
theorem C4_download_not_found_witness :
    DocuShare.download ⟨"https://example.org/docushare/", true, some "alice", []⟩
      ⟨.Version, 123456⟩ (fun _ => sampleNotFoundResponse)
      = (.error .notFound,
        [getResourceUrl ⟨"https://example.org/docushare/", true, some "alice", []⟩
          ⟨.Version, 123456⟩]) := by
  apply C4_download_not_found
  · rfl
  · right
    rfl
  · rfl
  · rfl
  · exact ⟨Dom.element "h2" [] [.textNode " Not Found "], List.mem_singleton.mpr rfl, by rfl⟩
  · rfl
  · rfl
  · rfl

/-! ## Login lemmas (for C1) -/

theorem promptSeq_length : ∀ (k : Nat) (q : List String), (promptSeq k q).length = k := by
  intro k
  induction k with
  | zero => intro q; rfl
  | succ k ih =>
    intro q
    cases q <;> simp [promptSeq, ih]

/-- All-fail unfolding of the USE_STORED loop once the store is empty:
    each remaining attempt prompts once, POSTs once and fails, and the
    final attempt raises the fatal login failure. -/
theorem login_useStored_allfail_nostore (auth : String → Bool) (u : String)
    (hfail : ∀ p, auth p = false) :
    ∀ (k : Nat), 1 ≤ k →
    ∀ (q : List String) (evs : List LoginEvent) (am : Bool) (un : Option String),
    DocuShare.login auth u .useStored k ⟨none, q, evs, am, un⟩
      = .loginFailure ⟨none, q.drop k, evs ++ (promptSeq k q).map LoginEvent.post, false, none⟩ := by
  intro k
  induction k with
  | zero =>
    intro h
    omega
  | succ k ih =>
    intro _ q evs am un
    by_cases hk : k = 0
    · subst hk
      cases q with
      | nil => simp [DocuShare.login, promptPassword, hfail, promptSeq]
      | cons p rest => simp [DocuShare.login, promptPassword, hfail, promptSeq]
    · have h1k : 1 ≤ k := Nat.one_le_iff_ne_zero.mpr hk
      cases q with
      | nil =>
        have hrec := ih h1k [] (evs ++ [.post ""]) false none
        simp [DocuShare.login, promptPassword, hfail, deletePassword, hk, hrec, promptSeq]
      | cons p rest =>
        have hrec := ih h1k rest (evs ++ [.post p]) false none
        simp [DocuShare.login, promptPassword, hfail, deletePassword, hk, hrec, promptSeq]

theorem countPosts_append (a b : List LoginEvent) :
    countPosts (a ++ b) = countPosts a + countPosts b := by
  simp [countPosts, List.filter_append]

theorem countPosts_post_map (l : List String) :
    countPosts (l.map LoginEvent.post) = l.length := by
  induction l with
  | nil => rfl
  | cons p rest ih =>
    simpa [countPosts, List.filter_cons] using ih

/-- C1 (amended): under the USE_STORED policy with a wrong stored password
    and every subsequently entered password also failing, a login call
    with retry budget n at least 2 performs exactly n credential POSTs,
    deletes the wrong stored password right after the first failed
    attempt (the deletion is the second event, immediately after the
    first POST), leaves the store empty, and terminates by raising the
    fatal login failure. (With n = 1 the code raises immediately and
    never deletes the stored password; see the counterexample.) -/
theorem C1_login_retry_stored (auth : String → Bool) (u bad : String)
    (q : List String) (n : Nat)
    (hn : 2 ≤ n) (hbad : bad ≠ "") (hfail : ∀ p, auth p = false) :
    DocuShare.login auth u .useStored n ⟨some bad, q, [], false, none⟩
      = .loginFailure ⟨none, q.drop (n - 1),
          [.post bad, .storeDelete] ++ (promptSeq (n - 1) q).map LoginEvent.post, false, none⟩ ∧
    countPosts ([.post bad, .storeDelete] ++ (promptSeq (n - 1) q).map LoginEvent.post) = n ∧
    ([LoginEvent.post bad, .storeDelete] ++ (promptSeq (n - 1) q).map LoginEvent.post).take 2
      = [.post bad, .storeDelete] := by
  obtain ⟨j, rfl⟩ : ∃ j, n = j + 1 := ⟨n - 1, by omega⟩
  have hj : j ≠ 0 := by omega
  have h1j : 1 ≤ j := Nat.one_le_iff_ne_zero.mpr hj
  refine ⟨?_, ?_, ?_⟩
  · have hrec := login_useStored_allfail_nostore auth u hfail j h1j q
      [.post bad, .storeDelete] false none
    simp [DocuShare.login, hbad, hfail, deletePassword, hj, hrec]
  · rw [countPosts_append, countPosts_post_map, promptSeq_length]
    simp [countPosts]
    omega
  · simp

/-- Witness for C1 at n = 2 with stored password pw and an empty prompt
    queue. -/
theorem C1_login_retry_stored_witness :
    (2:Nat) ≤ 2 ∧ "pw" ≠ "" ∧
    (DocuShare.login (fun _ => false) "alice" .useStored 2 ⟨some "pw", [], [], false, none⟩
        = .loginFailure ⟨none, [], [.post "pw", .storeDelete, .post ""], false, none⟩ ∧
      countPosts [.post "pw", .storeDelete, .post ""] = 2 ∧
      [LoginEvent.post "pw", .storeDelete, .post ""].take 2
        = [.post "pw", .storeDelete]) :=
  ⟨by decide, by decide,
    C1_login_retry_stored (fun _ => false) "alice" "pw" [] 2 (by decide) (by decide)
      (fun _ => rfl)⟩

/-- C1 counterexample at retry budget n = 1: the call performs its single
    failing POST of the wrong stored password and raises the fatal login
    failure, but the store still holds the wrong password afterwards and
    no deletion event ever occurs — login raises before reaching the
    USE_STORED deletion branch, so the claim's deletion clause fails for
    n = 1. -/
theorem C1_login_retry_stored_counterexample :
    DocuShare.login (fun _ => false) "alice" .useStored 1
        ⟨some "wrongpw", [], [], false, none⟩
      = .loginFailure ⟨some "wrongpw", [], [.post "wrongpw"], false, none⟩ ∧
    (∀ e ∈ [LoginEvent.post "wrongpw"], e ≠ .storeDelete) ∧
    some "wrongpw" ≠ (none : Option String) := by
  refine ⟨rfl, ?_, by decide⟩
  intro e he
  rcases List.mem_singleton.mp he with rfl
  decide

end PyDocuShare
